import Mathlib

/-!
Verification of the page-collection state machine of
`src/PdfPageManipulator_vheidari/PdfPageManipulator.py`.

The Python class `PdfPageManipulator` keeps an ordered sequence of page
handles (`self.pages`), its length (`self.page_length`), a load-time backup
(`self.original_pages`), derived parity views (`self.even_pages`,
`self.odd_pages`) and the last dispatched action (`self.last_method`).
Every public operation funnels through `__dispatch_action`, which evaluates
one lambda from a table and then calls `_op_update_pages_and_its_len` on the
lambda's result before recording `last_method`.

The embedding below mirrors the Python semantics exactly, including:
- `self.pages` may become Python `None` (the insert helpers are `pass`
  stubs that return `None`, and `_op_update_pages_and_its_len` assigns it to
  `self.pages` before `len(None)` raises `TypeError`); hence
  `pages : Option (List Page)`.
- Python exceptions are modelled by returning the state as it stands at the
  moment of the raise, paired with `some e` for the raised error kind.
- Python's heterogeneous `==` between a PyPDF2 page object and an `int`
  (used by the `EXTRACT_PAGES` lambda) is always `False`, since
  `PageObject` defines no equality against `int`.
- Python slice semantics (negative indices, clamping, exclusive stop) for
  the `EXTRACT_RANGE` lambda.
-/

namespace Pdf

/-- An opaque page handle obtained from the external codec (a PyPDF2
`PageObject`); only identity matters, never content. -/
structure Page where
  id : Nat
deriving DecidableEq, Repr, Inhabited

/-- The Python exception kinds the module can actually raise.  The payload
messages are irrelevant to every property proved here and are omitted. -/
inductive PyError where
  | typeError
  | keyError
  | valueError
  | indexError
deriving DecidableEq, Repr

/-- The `PdfActions` enum of the source, one constructor per member. -/
inductive PdfActions where
  | INSERT_FIRST
  | INSERT_LAST
  | ADD_AFTER_PAGE
  | ADD_BLANK
  | EXTRACT_PAGES
  | EXTRACT_RANGE
  | EXTRACT_EVENS
  | EXTRACT_ODDS
  | EXTRACT_EVEN_ODD_AND_SAVE
  | REMOVE_FIRST_PAGE
  | REMOVE_LAST_PAGE
  | REMOVE_PAGES
deriving DecidableEq, Repr

/-- The mutable state of a `PdfPageManipulator` instance.  The name/path
strings and the `writer` object influence no claim and are omitted.
`pages` is `Option` because the code assigns Python `None` to `self.pages`
on the failing insert path. -/
structure MState where
  pages : Option (List Page)
  page_length : Nat
  original_pages : List Page
  even_pages : List Page
  odd_pages : List Page
  last_method : Option PdfActions
deriving DecidableEq, Repr

/-- `__init__`: `pages = []`, `page_length = 0`, backups empty,
`last_method = None`. -/
def initState : MState :=
  { pages := some []
    page_length := 0
    original_pages := []
    even_pages := []
    odd_pages := []
    last_method := none }

/-- `load_pdf`: reads the document (here: the page list the codec would
return), sets `pages`, `page_length = len(pages)` and snapshots
`original_pages = pages.copy()`. -/
def load_pdf (s : MState) (doc : List Page) : MState :=
  { s with pages := some doc, page_length := doc.length, original_pages := doc }

/-- The `kw_args` dict of `__dispatch_action`: the outer `Option` is key
presence (a missing key raises `KeyError`), the inner `Option` on
`page_list`/`after_page` is a present key whose value is Python `None`. -/
structure KwArgs where
  index : Option Int := none
  page_list : Option (Option (List Int)) := none
  from_page : Option Int := none
  to_page : Option Int := none
  after_page : Option (Option Int) := none
deriving DecidableEq, Repr

/-- Python `==` between a PyPDF2 `PageObject` and an `int`: `PageObject`
implements no `__eq__` accepting `int`, so comparison falls back to
identity and is `False` for every page handle and every integer. -/
def pyEqPageInt (_p : Page) (_n : Int) : Bool := false

/-- Python `page in page_list` for a page handle and a list of ints. -/
def pyMemPageIntList (p : Page) (l : List Int) : Bool :=
  l.any (fun n => pyEqPageInt p n)

/-- Normalise one Python slice bound against a list length: negative
indices count from the end, then the result is clamped into `[0, len]`. -/
def pySliceBound (len : Nat) (i : Int) : Nat :=
  let j : Int := if i < 0 then i + len else i
  if j < 0 then 0 else min j.toNat len

/-- Python `l[a : b]`: the elements with positions in `[a', b')` after
normalising both bounds.  Slicing never raises for any `a`, `b`. -/
def pySlice (l : List Page) (a b : Int) : List Page :=
  (l.take (pySliceBound l.length b)).drop (pySliceBound l.length a)

/-- The `EXTRACT_PAGES` lambda body:
`[result for i, result in enumerate(self.pages) if self.pages[i] in page_list]`.
Note it tests membership of the page *object* `self.pages[i]` in the int
list, not of the index `i`. -/
def extractPagesComp (ps : List Page) (pl : List Int) : List Page :=
  (ps.enum.filter (fun ip => pyMemPageIntList (ps.getD ip.1 default) pl)).map Prod.snd

/-- The `REMOVE_PAGES` lambda body:
`[result for i, result in enumerate(self.pages) if i not in page_list]`. -/
def removePagesComp (ps : List Page) (pl : List Int) : List Page :=
  (ps.enum.filter (fun ip => !(pl.contains (ip.1 : Int)))).map Prod.snd

/-- The `EXTRACT_EVENS` lambda body: pages at even 0-based positions. -/
def evensComp (ps : List Page) : List Page :=
  (ps.enum.filter (fun ip => ip.1 % 2 == 0)).map Prod.snd

/-- The `EXTRACT_ODDS` lambda body: pages at odd 0-based positions. -/
def oddsComp (ps : List Page) : List Page :=
  (ps.enum.filter (fun ip => ip.1 % 2 != 0)).map Prod.snd

/-- `_op_insert_at`: the method body is only `pass` (the comment in the
source says `Implementation will go here`), so every call returns Python
`None`, whatever its arguments. -/
def opInsertAt (_index : Int) (_use_buffer : Bool) : Option (List Page) := none

/-- `_op_even_odd_and_save`: body is only `pass`; returns Python `None`
and touches no state. -/
def opEvenOddAndSave : Option (List Page) := none

/-- Evaluate `operations[action]()`: the lambda chosen by
`__dispatch_action`.  Errors reproduce the Python evaluation order:
for the comprehensions, `enumerate(self.pages)` is evaluated first
(`TypeError` on `None`), the condition — and with it the `kw_args` lookup
and the membership test — only when the list is non-empty; for
`EXTRACT_RANGE` the two `kw_args` lookups precede the subscription of
`self.pages`.  An `.ok none` result is a lambda that returned Python
`None` (the stub helpers). -/
def runLambda (s : MState) (a : PdfActions) (use_buffer : Bool) (kw : KwArgs) :
    Except PyError (Option (List Page)) :=
  match a with
  | .INSERT_FIRST | .INSERT_LAST | .ADD_AFTER_PAGE | .ADD_BLANK =>
    match kw.index with
    | none => .error .keyError
    | some i => .ok (opInsertAt i use_buffer)
  | .EXTRACT_PAGES =>
    match s.pages with
    | none => .error .typeError
    | some ps =>
      if ps.isEmpty then .ok (some [])
      else
        match kw.page_list with
        | none => .error .keyError
        | some none => .error .typeError
        | some (some pl) => .ok (some (extractPagesComp ps pl))
  | .EXTRACT_RANGE =>
    match kw.from_page with
    | none => .error .keyError
    | some fp =>
      match kw.to_page with
      | none => .error .keyError
      | some tp =>
        match s.pages with
        | none => .error .typeError
        | some ps => .ok (some (pySlice ps fp tp))
  | .EXTRACT_EVENS =>
    match s.pages with
    | none => .error .typeError
    | some ps => .ok (some (evensComp ps))
  | .EXTRACT_ODDS =>
    match s.pages with
    | none => .error .typeError
    | some ps => .ok (some (oddsComp ps))
  | .EXTRACT_EVEN_ODD_AND_SAVE => .ok opEvenOddAndSave
  | .REMOVE_FIRST_PAGE =>
    match s.pages with
    | none => .error .typeError
    | some ps => .ok (some (ps.drop 1))
  | .REMOVE_LAST_PAGE =>
    match s.pages with
    | none => .error .typeError
    | some ps => .ok (some ps.dropLast)
  | .REMOVE_PAGES =>
    match s.pages with
    | none => .error .typeError
    | some ps =>
      if ps.isEmpty then .ok (some [])
      else
        match kw.page_list with
        | none => .error .keyError
        | some none => .error .typeError
        | some (some pl) => .ok (some (removePagesComp ps pl))

/-- `_op_update_pages_and_its_len`: assigns `self.pages = new_pages` first,
then `self.page_length = len(self.pages)`.  When `new_pages` is Python
`None` the first assignment has already happened when `len(None)` raises
`TypeError`, so the state escapes with `pages = None` and a stale
`page_length`. -/
def opUpdatePagesAndItsLen (s : MState) (new_pages : Option (List Page)) :
    MState × Option PyError :=
  match new_pages with
  | none => ({ s with pages := none }, some .typeError)
  | some l => ({ s with pages := some l, page_length := l.length }, none)

/-- `__dispatch_action`: run the lambda, feed its result to
`_op_update_pages_and_its_len`, then set `self.last_method = action`.
Every member of `PdfActions` has a table entry, so the
`Unknown action` branch of the source is unreachable and has no
constructor here. -/
def dispatchAction (s : MState) (a : PdfActions) (use_buffer : Bool) (kw : KwArgs) :
    MState × Option PyError :=
  match runLambda s a use_buffer kw with
  | .error e => (s, some e)
  | .ok np =>
    match opUpdatePagesAndItsLen s np with
    | (s1, some e) => (s1, some e)
    | (s1, none) => ({ s1 with last_method := some a }, none)

/-- `insert_first`: dispatch `INSERT_FIRST` with `index = 0`. -/
def insert_first (s : MState) (use_buffer : Bool) : MState × Option PyError :=
  dispatchAction s .INSERT_FIRST use_buffer { index := some 0 }

/-- `insert_last`: `index = len(self.pages)` is computed in the method
itself, so a `None` page list raises `TypeError` before dispatch. -/
def insert_last (s : MState) (use_buffer : Bool) : MState × Option PyError :=
  match s.pages with
  | none => (s, some .typeError)
  | some ps => dispatchAction s .INSERT_LAST use_buffer { index := some (ps.length : Int) }

/-- `add_after_page`: dispatch `ADD_AFTER_PAGE` with `index = page_number`. -/
def add_after_page (s : MState) (page_number : Int) (use_buffer : Bool) :
    MState × Option PyError :=
  dispatchAction s .ADD_AFTER_PAGE use_buffer { index := some page_number }

/-- `add_blank`: passes `after_page`, never `index`; the `ADD_BLANK`
lambda looks up `kw_args["index"]` and so always raises `KeyError`. -/
def add_blank (s : MState) (use_buffer : Bool) (after_page : Option Int) :
    MState × Option PyError :=
  dispatchAction s .ADD_BLANK use_buffer { after_page := some after_page }

/-- `extract_pages`: forwards `page_list` (possibly Python `None`). -/
def extract_pages (s : MState) (use_buffer : Bool) (page_list : Option (List Int)) :
    MState × Option PyError :=
  dispatchAction s .EXTRACT_PAGES use_buffer { page_list := some page_list }

/-- `extract_range`: reads `page_list[0]` and `page_list[1]` in the method
body (`TypeError` on `None`, `IndexError` on a short list), then
dispatches `EXTRACT_RANGE`. -/
def extract_range (s : MState) (use_buffer : Bool) (page_list : Option (List Int)) :
    MState × Option PyError :=
  match page_list with
  | none => (s, some .typeError)
  | some [] => (s, some .indexError)
  | some [_] => (s, some .indexError)
  | some (fp :: tp :: _) =>
    dispatchAction s .EXTRACT_RANGE use_buffer { from_page := some fp, to_page := some tp }

/-- `extract_evens`: dispatch `EXTRACT_EVENS` with no kwargs. -/
def extract_evens (s : MState) (use_buffer : Bool) : MState × Option PyError :=
  dispatchAction s .EXTRACT_EVENS use_buffer {}

/-- `extract_odds`: dispatch `EXTRACT_ODDS` with no kwargs. -/
def extract_odds (s : MState) (use_buffer : Bool) : MState × Option PyError :=
  dispatchAction s .EXTRACT_ODDS use_buffer {}

/-- `extract_even_odd_and_save`: dispatch `EXTRACT_EVEN_ODD_AND_SAVE`. -/
def extract_even_odd_and_save (s : MState) (use_buffer : Bool) : MState × Option PyError :=
  dispatchAction s .EXTRACT_EVEN_ODD_AND_SAVE use_buffer {}

/-- `remove_first_page`: dispatch `REMOVE_FIRST_PAGE` (`self.pages[1:]`,
which is `drop 1` for every list, the empty one included). -/
def remove_first_page (s : MState) (use_buffer : Bool) : MState × Option PyError :=
  dispatchAction s .REMOVE_FIRST_PAGE use_buffer {}

/-- `remove_last_page`: dispatch `REMOVE_LAST_PAGE` (`self.pages[:-1]`,
which is `dropLast` for every list, the empty one included). -/
def remove_last_page (s : MState) (use_buffer : Bool) : MState × Option PyError :=
  dispatchAction s .REMOVE_LAST_PAGE use_buffer {}

/-- `remove_pages`: the only argument validation in the module — only
`page_list == None` is rejected, with `ValueError`; an empty list passes. -/
def remove_pages (s : MState) (page_list : Option (List Int)) (use_buffer : Bool) :
    MState × Option PyError :=
  match page_list with
  | none => (s, some .valueError)
  | some pl => dispatchAction s .REMOVE_PAGES use_buffer { page_list := some (some pl) }

/-- `save`: the body is a bare `pass` — no writer call, no file, no state
change.  The second component is the document the call writes out:
always `none`. -/
def save (s : MState) : MState × Option (List Page) := (s, none)

/-- One public API call, with its arguments. -/
inductive ApiCall where
  | insertFirstC
  | insertLastC
  | addAfterPageC (n : Int)
  | addBlankC (after : Option Int)
  | extractPagesC (pl : Option (List Int))
  | extractRangeC (pl : Option (List Int))
  | extractEvensC
  | extractOddsC
  | extractEvenOddAndSaveC
  | removeFirstPageC
  | removeLastPageC
  | removePagesC (pl : Option (List Int))
deriving DecidableEq, Repr

/-- Run one public API call with the default `use_buffer = True`. -/
def runApi (s : MState) : ApiCall → MState × Option PyError
  | .insertFirstC => insert_first s true
  | .insertLastC => insert_last s true
  | .addAfterPageC n => add_after_page s n true
  | .addBlankC a => add_blank s true a
  | .extractPagesC pl => extract_pages s true pl
  | .extractRangeC pl => extract_range s true pl
  | .extractEvensC => extract_evens s true
  | .extractOddsC => extract_odds s true
  | .extractEvenOddAndSaveC => extract_even_odd_and_save s true
  | .removeFirstPageC => remove_first_page s true
  | .removeLastPageC => remove_last_page s true
  | .removePagesC pl => remove_pages s pl true

/-- The length invariant: `self.pages` is an actual list and
`self.page_length == len(self.pages)`. -/
def pagesLenSynced (s : MState) : Bool :=
  match s.pages with
  | none => false
  | some l => s.page_length == l.length

/-- States reachable from a fresh instance by one `load_pdf` followed by
any sequence of public operations that return successfully. -/
inductive ReachableOk : MState → Prop where
  | load (doc : List Page) : ReachableOk (load_pdf initState doc)
  | step (s s' : MState) (c : ApiCall) :
      ReachableOk s → runApi s c = (s', none) → ReachableOk s'

/-- Concrete documents used in the concrete-scenario theorems. -/
def docA : List Page := [⟨0⟩]

def docAB : List Page := [⟨0⟩, ⟨1⟩]

def docABC : List Page := [⟨0⟩, ⟨1⟩, ⟨2⟩]

def doc5 : List Page := [⟨0⟩, ⟨1⟩, ⟨2⟩, ⟨3⟩, ⟨4⟩]

def loadedA : MState := load_pdf initState docA

def loadedAB : MState := load_pdf initState docAB

def loadedABC : MState := load_pdf initState docABC

def loaded5 : MState := load_pdf initState doc5

def loadedEmpty : MState := load_pdf initState []

end Pdf

namespace Pdf

/-- `extractPagesComp` always produces the empty list: the comprehension's
condition compares a page object with an `int`, which is `False` in
Python for every pair. -/
theorem extractPagesComp_eq_nil (ps : List Page) (pl : List Int) :
    extractPagesComp ps pl = [] := by
  have h : (fun ip : Nat × Page => pyMemPageIntList (ps.getD ip.1 default) pl) =
      fun _ => false := by
    funext ip
    simp [pyMemPageIntList, pyEqPageInt]
  rw [extractPagesComp, h, List.filter_false, List.map_nil]

/-- Removing the empty index list keeps every page. -/
theorem removePagesComp_nil (ps : List Page) : removePagesComp ps [] = ps := by
  have h : (fun ip : Nat × Page => !(List.contains ([] : List Int) (ip.1 : Int))) =
      fun _ => true := by
    funext ip
    rfl
  rw [removePagesComp, h, List.filter_true, List.enum_map_snd]

end Pdf

namespace Pdf

/-- A successful dispatch always leaves `pages` an actual list with
`page_length` equal to its length, because every success path runs
through `_op_update_pages_and_its_len` on a non-`None` list. -/
theorem dispatchAction_ok_synced (s : MState) (a : PdfActions) (ub : Bool) (kw : KwArgs) :
    (dispatchAction s a ub kw).2 = none →
      pagesLenSynced (dispatchAction s a ub kw).1 = true := by
  unfold dispatchAction
  cases hl : runLambda s a ub kw with
  | error e =>
    intro h
    simp at h
  | ok np =>
    cases np with
    | none =>
      intro h
      simp [opUpdatePagesAndItsLen] at h
    | some l =>
      intro h
      simp [opUpdatePagesAndItsLen, pagesLenSynced]

/-- Every public operation that returns successfully leaves the length
invariant true, regardless of the state it started from. -/
theorem runApi_ok_synced (s : MState) (c : ApiCall) :
    (runApi s c).2 = none → pagesLenSynced (runApi s c).1 = true := by
  cases c with
  | insertFirstC => exact dispatchAction_ok_synced s .INSERT_FIRST true { index := some 0 }
  | insertLastC =>
    simp only [runApi, insert_last]
    cases hp : s.pages with
    | none =>
      intro h
      simp at h
    | some ps => exact dispatchAction_ok_synced _ _ _ _
  | addAfterPageC n => exact dispatchAction_ok_synced s .ADD_AFTER_PAGE true { index := some n }
  | addBlankC a => exact dispatchAction_ok_synced s .ADD_BLANK true { after_page := some a }
  | extractPagesC pl => exact dispatchAction_ok_synced s .EXTRACT_PAGES true { page_list := some pl }
  | extractRangeC pl =>
    simp only [runApi, extract_range]
    match pl with
    | none =>
      intro h
      simp at h
    | some [] =>
      intro h
      simp at h
    | some [x] =>
      intro h
      simp at h
    | some (fp :: tp :: rest) => exact dispatchAction_ok_synced _ _ _ _
  | extractEvensC => exact dispatchAction_ok_synced s .EXTRACT_EVENS true {}
  | extractOddsC => exact dispatchAction_ok_synced s .EXTRACT_ODDS true {}
  | extractEvenOddAndSaveC => exact dispatchAction_ok_synced s .EXTRACT_EVEN_ODD_AND_SAVE true {}
  | removeFirstPageC => exact dispatchAction_ok_synced s .REMOVE_FIRST_PAGE true {}
  | removeLastPageC => exact dispatchAction_ok_synced s .REMOVE_LAST_PAGE true {}
  | removePagesC pl =>
    simp only [runApi, remove_pages]
    cases pl with
    | none =>
      intro h
      simp at h
    | some l => exact dispatchAction_ok_synced _ _ _ _

/-- Claim C1: after `load_pdf` and after every public operation that
returns successfully, `self.page_length == len(self.pages)` — the stored
page count equals the length of the current page sequence in every state
reachable through successful operations. -/
theorem C1_page_length_invariant (s : MState) (h : ReachableOk s) :
    pagesLenSynced s = true := by
  induction h with
  | load doc => simp [pagesLenSynced, load_pdf, initState]
  | step s1 s2 c hr hrun ih =>
    have h1 := runApi_ok_synced s1 c (by rw [hrun])
    rwa [hrun] at h1

/-- Witness for C1 at the concrete two-page load. -/
theorem C1_page_length_invariant_witness :
    ReachableOk (load_pdf initState docAB) ∧
      pagesLenSynced (load_pdf initState docAB) = true :=
  ⟨ReachableOk.load docAB, C1_page_length_invariant _ (ReachableOk.load docAB)⟩

end Pdf

namespace Pdf

/-- Claim C2 (code bug witness): `insert_first` on a loaded two-page
document raises `TypeError` yet partially applies its effect — the
dispatcher's update helper has already overwritten `self.pages` with
`None` when `len(None)` raises, while `page_length` and `last_method`
keep their pre-call values.  The failing operation does not leave
`currentPages` as it was. -/
theorem C2_insert_partial_effect :
    insert_first loadedAB true = ({ loadedAB with pages := none }, some PyError.typeError) ∧
      loadedAB.pages = some docAB ∧
      loadedAB.page_length = 2 := by
  decide

/-- Claim C3 (code bug witness): `extract_pages([2, 0])` on a loaded
three-page document returns successfully but replaces `currentPages` with
the empty sequence (length 0) instead of `[page2, page0]` (length 2):
the comprehension tests whether the page *object* — not its position — is
a member of the index list, which is never true for an `int` entry. -/
theorem C3_extract_pages_wrong_result :
    (extract_pages loadedABC true (some [2, 0])).2 = none ∧
      (extract_pages loadedABC true (some [2, 0])).1.pages = some [] ∧
      (extract_pages loadedABC true (some [2, 0])).1.page_length = 0 := by
  decide

/-- Claim C4 (code bug witness): on a loaded five-page document,
`extract_range` with `[1, 3]` keeps only positions 1 and 2 — the Python
slice `pages[1:3]` excludes the end bound, so the result length is
`end - start`, not `end - start + 1` — and out-of-range bounds such as
`[0, 99]` are silently clamped instead of raising. -/
theorem C4_extract_range_exclusive_unchecked :
    (extract_range loaded5 true (some [1, 3])).2 = none ∧
      (extract_range loaded5 true (some [1, 3])).1.pages = some [⟨1⟩, ⟨2⟩] ∧
      (extract_range loaded5 true (some [1, 3])).1.page_length = 2 ∧
      (extract_range loaded5 true (some [0, 99])).2 = none ∧
      (extract_range loaded5 true (some [0, 99])).1.page_length = 5 := by
  decide

/-- Claim C5 (code bug witness): no insert operation can succeed — the
`_op_insert_at` helper is a `pass` stub returning `None`, so on a loaded
three-page document every insert entry point raises `TypeError`, no blank
page is inserted and the page count never grows; valid positions (0 for
`insert_first`, an in-range `add_after_page` index) fail identically. -/
theorem C5_insert_stub_never_inserts :
    (insert_first loadedABC true).2 = some PyError.typeError ∧
      (insert_first loadedABC true).1.pages = none ∧
      (insert_first loadedABC true).1.page_length = 3 ∧
      (insert_last loadedABC true).2 = some PyError.typeError ∧
      (add_after_page loadedABC 0 true).2 = some PyError.typeError ∧
      (add_blank loadedABC true (some 0)).2 = some PyError.keyError := by
  decide

/-- Claim C6 counterexample: on a loaded zero-page document,
`remove_first_page` and `remove_last_page` return successfully — no
`EmptyDocumentError` (nor any error) is raised, contrary to the claim. -/
theorem C6_empty_remove_succeeds :
    (remove_first_page loadedEmpty true).2 = none ∧
      (remove_last_page loadedEmpty true).2 = none ∧
      loadedEmpty.page_length = 0 := by
  decide

/-- Claim C6 amended: whenever `self.pages` is an actual list,
`remove_first_page`/`remove_last_page` succeed unconditionally — on a
zero-page document they leave the sequence empty rather than raising —
and replace `currentPages` with all-but-first / all-but-last
respectively, updating `page_length` and `last_method`. -/
theorem C6_remove_first_last_behavior (s : MState) (ps : List Page)
    (h : s.pages = some ps) :
    remove_first_page s true =
      ({ s with
          pages := some (ps.drop 1)
          page_length := (ps.drop 1).length
          last_method := some PdfActions.REMOVE_FIRST_PAGE }, none) ∧
      remove_last_page s true =
        ({ s with
            pages := some ps.dropLast
            page_length := ps.dropLast.length
            last_method := some PdfActions.REMOVE_LAST_PAGE }, none) := by
  constructor <;>
    simp [remove_first_page, remove_last_page, dispatchAction, runLambda,
      opUpdatePagesAndItsLen, h]

/-- Witness for the amended C6 at the concrete zero-page load. -/
theorem C6_remove_first_last_behavior_witness :
    loadedEmpty.pages = some ([] : List Page) ∧
      (remove_first_page loadedEmpty true =
        ({ loadedEmpty with
            pages := some (([] : List Page).drop 1)
            page_length := (([] : List Page).drop 1).length
            last_method := some PdfActions.REMOVE_FIRST_PAGE }, none) ∧
        remove_last_page loadedEmpty true =
          ({ loadedEmpty with
              pages := some ([] : List Page).dropLast
              page_length := ([] : List Page).dropLast.length
              last_method := some PdfActions.REMOVE_LAST_PAGE }, none)) :=
  ⟨rfl, C6_remove_first_last_behavior loadedEmpty [] rfl⟩

end Pdf

namespace Pdf

/-- Claim C7 counterexample: `remove_pages` called with the *empty* index
list returns successfully (no `ValueError`, no error at all) on a loaded
one-page document, leaving the page content as it was — contrary to the
claim that an empty indices list fails. -/
theorem C7_empty_list_accepted :
    (remove_pages loadedA (some []) true).2 = none ∧
      (remove_pages loadedA (some []) true).1.pages = some docA := by
  decide

/-- Claim C7 amended: only an *absent* (`None`) list is validated, and
only by `remove_pages`, which then raises `ValueError` leaving the state
untouched.  `remove_pages([])` succeeds and keeps every page;
`extract_pages([])` succeeds and empties `currentPages`;
`extract_pages(None)` raises `TypeError` (not `ValueError`) on a
non-empty document, leaving the state untouched, and succeeds vacuously
on an empty one. -/
theorem C7_argument_validation (s : MState) (ps : List Page)
    (h : s.pages = some ps) :
    remove_pages s none true = (s, some PyError.valueError) ∧
      (remove_pages s (some []) true).2 = none ∧
      (remove_pages s (some []) true).1.pages = some ps ∧
      (extract_pages s true (some [])).2 = none ∧
      (extract_pages s true (some [])).1.pages = some [] ∧
      (ps ≠ [] → extract_pages s true none = (s, some PyError.typeError)) ∧
      (ps = [] → (extract_pages s true none).2 = none) := by
  cases ps with
  | nil =>
    refine ⟨rfl, ?_, ?_, ?_, ?_, ?_, ?_⟩ <;>
      simp [remove_pages, extract_pages, dispatchAction, runLambda,
        opUpdatePagesAndItsLen, h]
  | cons p rest =>
    refine ⟨rfl, ?_, ?_, ?_, ?_, ?_, ?_⟩ <;>
      simp [remove_pages, extract_pages, dispatchAction, runLambda,
        opUpdatePagesAndItsLen, h, removePagesComp_nil, extractPagesComp_eq_nil]

/-- Witness for the amended C7 at the concrete one-page load. -/
theorem C7_argument_validation_witness :
    loadedA.pages = some docA ∧
      (remove_pages loadedA none true = (loadedA, some PyError.valueError) ∧
        (remove_pages loadedA (some []) true).2 = none ∧
        (remove_pages loadedA (some []) true).1.pages = some docA ∧
        (extract_pages loadedA true (some [])).2 = none ∧
        (extract_pages loadedA true (some [])).1.pages = some [] ∧
        (docA ≠ [] → extract_pages loadedA true none = (loadedA, some PyError.typeError)) ∧
        (docA = [] → (extract_pages loadedA true none).2 = none)) :=
  ⟨rfl, C7_argument_validation loadedA docA rfl⟩

/-- Claim C8 counterexample: on a freshly constructed instance on which
`load_pdf` was never called, `remove_first_page` returns successfully —
no `NotLoadedError` (nor any error) is raised; the operation simply runs
on the empty initial page list. -/
theorem C8_unloaded_remove_succeeds :
    (remove_first_page initState true).2 = none ∧
      (remove_first_page initState true).1.pages = some [] ∧
      initState.last_method = none := by
  decide

/-- Claim C8 amended: the module performs no loaded-state check anywhere
and no loaded-state error exists.  On a never-loaded instance, each of
the twelve public operations behaves as it would on any zero-page
document: `extract_pages`, `extract_range`, `extract_evens`,
`extract_odds`, `remove_first_page`, `remove_last_page` and
`remove_pages` run on the empty initial page sequence and succeed
vacuously; `insert_first`, `insert_last`, `add_after_page` and
`extract_even_odd_and_save` fail with the `pass`-stub path's `TypeError`
(their helper returns `None`, so the update helper sets `pages = None`
and `len(None)` raises); and `add_blank` fails with `KeyError` (its
lambda reads the absent `kw_args["index"]`).  None of them raises a
loaded-state error. -/
theorem C8_no_loaded_state_check :
    (extract_pages initState true (some [0])).2 = none ∧
      (extract_range initState true (some [0, 1])).2 = none ∧
      (extract_evens initState true).2 = none ∧
      (extract_odds initState true).2 = none ∧
      (remove_first_page initState true).2 = none ∧
      (remove_last_page initState true).2 = none ∧
      (remove_pages initState (some [0]) true).2 = none ∧
      (insert_first initState true).2 = some PyError.typeError ∧
      (insert_last initState true).2 = some PyError.typeError ∧
      (add_after_page initState 0 true).2 = some PyError.typeError ∧
      (extract_even_odd_and_save initState true).2 = some PyError.typeError ∧
      (add_blank initState true (some 0)).2 = some PyError.keyError := by
  decide

/-- Claim C9 (code bug witness): on a loaded five-page document
`extract_evens` does put the even-position pages `[0, 2, 4]` into
`currentPages` (length 3), and `extract_odds` on a fresh load yields
positions `[1, 3]` (length 2) — but neither stores its result into
`even_pages`/`odd_pages`: those fields are only ever written by the
`pass`-stub `_op_even_odd_and_save` and stay empty. -/
theorem C9_evens_odds_not_stored :
    (extract_evens loaded5 true).2 = none ∧
      (extract_evens loaded5 true).1.pages = some [⟨0⟩, ⟨2⟩, ⟨4⟩] ∧
      (extract_evens loaded5 true).1.page_length = 3 ∧
      (extract_evens loaded5 true).1.even_pages = [] ∧
      (extract_odds loaded5 true).2 = none ∧
      (extract_odds loaded5 true).1.pages = some [⟨1⟩, ⟨3⟩] ∧
      (extract_odds loaded5 true).1.page_length = 2 ∧
      (extract_odds loaded5 true).1.odd_pages = [] := by
  decide

/-- Claim C10 (code bug witness): `save` is a bare `pass` — loading a
document and calling `save()` produces no output document at all (the
written-document component is `none`) and changes nothing; the
round-trip the claim requires never happens and the no-op is silent. -/
theorem C10_save_silent_noop :
    save (load_pdf initState docAB) = (load_pdf initState docAB, (none : Option (List Page))) ∧
      (load_pdf initState docAB).pages = some docAB := by
  decide

end Pdf
